import Mathlib

/-!
Verification development for the memvid-mind observation pipeline.

The definitions below are a shallow embedding of the repository's core
functions: the tool-output compressor (`compressToolOutput` and its
per-tool renderers), the pattern extractors (`extractImports`,
`extractExports`, `extractFunctionSignatures`, `extractClassNames`,
`extractErrorPatterns`), the observation classifier
(`classifyObservationType`), the one-line summary generator
(`generateSummary`), the session synthesizer (`generateSessionSummary`),
the context assembler (the pure tail of `Mind.getContext`, embedded as
`getContextAssemble`), and the post-tool-use hook's gating and storage
logic (`postToolUse`).

Strings are modelled as Lean `String` (a sequence of Unicode scalar
values); JavaScript string primitives used by the source
(`toLowerCase`, `includes`, `split`, `slice`, `trim`, template
interpolation of `undefined`, falsy-aware `||`) are embedded as the
`js*` helpers below, operating on the underlying character list.
-/

/-- Characters treated as whitespace by the embedded `\s` class, `trim`
and friends (the ASCII whitespace characters plus the common Unicode
space characters JavaScript also accepts). -/
def wsChar (c : Char) : Bool :=
  c = ' ' || c = '\t' || c = '\n' || c = '\r' ||
  c = Char.ofNat 11 || c = Char.ofNat 12 || c = Char.ofNat 160 ||
  c = Char.ofNat 0x1680 ||
  (0x2000 ≤ c.toNat && c.toNat ≤ 0x200A) ||
  c = Char.ofNat 0x202F || c = Char.ofNat 0x205F || c = Char.ofNat 0x3000 ||
  c = Char.ofNat 0xFEFF || c = Char.ofNat 0x2028 || c = Char.ofNat 0x2029

/-- Word characters of the regex class `\w` (ASCII letters, digits, underscore). -/
def wordChar (c : Char) : Bool :=
  c.isAlphanum || c = '_'

/-- Is the first list a prefix of the second (JS `startsWith` on char lists). -/
def listPre : List Char → List Char → Bool
  | [], _ => true
  | _ :: _, [] => false
  | a :: as, b :: bs => a = b && listPre as bs

/-- Is `sub` a contiguous infix of `l` (JS `String.prototype.includes`). -/
def listInfix (sub : List Char) : List Char → Bool
  | [] => listPre sub []
  | l@(_ :: rest) => listPre sub l || listInfix sub rest

/-- JS `s.includes(sub)`. -/
def jsIncludes (s sub : String) : Bool :=
  listInfix sub.data s.data

/-- JS `s.startsWith(t)`. -/
def jsStartsWith (s t : String) : Bool :=
  listPre t.data s.data

/-- JS `s.toLowerCase()` (per-character lowercasing). -/
def jsToLower (s : String) : String :=
  ⟨s.data.map Char.toLower⟩

/-- JS `s.slice(0, n)`: the first `n` characters. -/
def jsTake (s : String) (n : Nat) : String :=
  ⟨s.data.take n⟩

/-- Split a character list on a separator character, JS
`split` semantics: the empty string yields `[[]]`, a trailing separator
yields a trailing empty piece. -/
def splitChar (sep : Char) : List Char → List (List Char)
  | [] => [[]]
  | c :: cs =>
    if c = sep then [] :: splitChar sep cs
    else
      match splitChar sep cs with
      | [] => [[c]]
      | h :: t => (c :: h) :: t

/-- JS `s.split(sep)` for a one-character separator. -/
def jsSplit (s : String) (sep : Char) : List String :=
  (splitChar sep s.data).map (fun l => ⟨l⟩)

/-- JS `s.trim()`. -/
def jsTrim (s : String) : String :=
  ⟨((s.data.dropWhile wsChar).reverse.dropWhile wsChar).reverse⟩

/-- JS `arr.slice(-n)`: the last `n` elements of a list. -/
def lastN (l : List α) (n : Nat) : List α :=
  l.drop (l.length - n)

/-- JS falsy test for an optional string (`undefined` and `""` are falsy). -/
def jsFalsy : Option String → Bool
  | none => true
  | some s => s = ""

/-- JS `a || b` over optional strings, with falsy short-circuiting. -/
def jsOrS (a b : Option String) : Option String :=
  if jsFalsy a then b else a

/-- JS `a || d` where `a` is an optional string and `d` a string default. -/
def jsorStr (a : Option String) (d : String) : String :=
  match a with
  | some s => if s = "" then d else s
  | none => d

/-- JS `s.split("/").pop()`: the last `/`-separated segment (possibly empty). -/
def jsLastSeg (s : String) : String :=
  (jsSplit s '/').getLastD ""

/-- JS template interpolation of `opt?.slice(0, n)`: a missing value
interpolates as the literal text `undefined`. -/
def optSlice (opt : Option String) (n : Nat) : String :=
  match opt with
  | some s => jsTake s n
  | none => "undefined"

/-- Add an element to an insertion-ordered set (the body of building a JS
`Set` by successive `add` calls). -/
def setAdd (acc : List String) (x : String) : List String :=
  if x ∈ acc then acc else acc ++ [x]

/-- Insertion-ordered deduplication: the embedding of `[...new Set(xs)]`,
which keeps the first occurrence of each element. -/
def jsSetDedup (xs : List String) : List String :=
  xs.foldl setAdd []

/-- Token estimate used by the context assembler: `Math.ceil(length / 4)`. -/
def estimateTokens (text : String) : Nat :=
  (text.length + 3) / 4

theorem setAdd_of_mem {acc : List String} {x : String} (h : x ∈ acc) :
    setAdd acc x = acc := by
  simp [setAdd, h]

theorem setAdd_of_not_mem {acc : List String} {x : String} (h : x ∉ acc) :
    setAdd acc x = acc ++ [x] := by
  simp [setAdd, h]

theorem setAdd_foldl_nodup (l : List String) (acc : List String)
    (h : acc.Nodup) : (l.foldl setAdd acc).Nodup := by
  induction l generalizing acc with
  | nil => exact h
  | cons x xs ih =>
    rw [List.foldl_cons]
    by_cases hx : x ∈ acc
    · rw [setAdd_of_mem hx]; exact ih acc h
    · rw [setAdd_of_not_mem hx]
      exact ih _ (List.Nodup.append h (List.nodup_singleton x)
        (by simpa using fun hmem => hx hmem))

theorem setAdd_foldl_sublist (l : List String) (acc : List String) :
    ∃ m, l.foldl setAdd acc = acc ++ m ∧ m.Sublist l := by
  induction l generalizing acc with
  | nil => exact ⟨[], by simp⟩
  | cons x xs ih =>
    rw [List.foldl_cons]
    by_cases hx : x ∈ acc
    · rw [setAdd_of_mem hx]
      obtain ⟨m, hm, hs⟩ := ih acc
      exact ⟨m, hm, hs.cons x⟩
    · rw [setAdd_of_not_mem hx]
      obtain ⟨m, hm, hs⟩ := ih (acc ++ [x])
      refine ⟨x :: m, ?_, hs.cons₂ x⟩
      rw [hm, List.append_assoc]
      rfl

theorem jsSetDedup_nodup (xs : List String) : (jsSetDedup xs).Nodup :=
  setAdd_foldl_nodup xs [] List.nodup_nil

theorem jsSetDedup_sublist (xs : List String) : (jsSetDedup xs).Sublist xs := by
  obtain ⟨m, hm, hs⟩ := setAdd_foldl_sublist xs []
  simpa [jsSetDedup, hm] using hs

/-- Abstract syntax of the regular expressions used by the extractors:
literals, single-character classes, concatenation, alternation, greedy
option, greedy star, and numbered capture groups. -/
inductive Regex where
  | eps : Regex
  | lit : List Char → Regex
  | cls : (Char → Bool) → Regex
  | cat : Regex → Regex → Regex
  | alt : Regex → Regex → Regex
  | opt : Regex → Regex
  | star : Regex → Regex
  | grp : Nat → Regex → Regex

/-- Drop a literal character sequence from the front of a list, if present. -/
def dropLit : List Char → List Char → Option (List Char)
  | [], s => some s
  | _ :: _, [] => none
  | c :: cs, d :: ds => if c = d then dropLit cs ds else none

/-- Capture-group environment: most recent binding of each group number first. -/
def Caps : Type := List (Nat × String)

/-- Look up the most recent binding of a capture group. -/
def capGet (caps : Caps) (i : Nat) : Option String :=
  ((caps : List (Nat × String)).find? (fun p => p.1 = i)).map (fun p => p.2)

/-- Backtracking matcher in continuation-passing style, mirroring the
greedy leftmost semantics of JavaScript regexes on the pattern shapes
the source uses.  `fuel` bounds star unfoldings (every star body in the
embedded patterns consumes at least one character, so fuel of one more
than the input length is never exhausted). -/
def Regex.matchA : Nat → Regex → List Char → Caps →
    (List Char → Caps → Option (List Char × Caps)) → Option (List Char × Caps)
  | _, .eps, s, caps, k => k s caps
  | _, .lit l, s, caps, k =>
    match dropLit l s with
    | some rest => k rest caps
    | none => none
  | _, .cls _, [], _, _ => none
  | _, .cls p, c :: s, caps, k => if p c then k s caps else none
  | n, .cat a b, s, caps, k =>
    Regex.matchA n a s caps (fun s2 c2 => Regex.matchA n b s2 c2 k)
  | n, .alt a b, s, caps, k =>
    (Regex.matchA n a s caps k).orElse (fun _ => Regex.matchA n b s caps k)
  | n, .opt a, s, caps, k =>
    (Regex.matchA n a s caps k).orElse (fun _ => k s caps)
  | 0, .star _, s, caps, k => k s caps
  | n + 1, .star a, s, caps, k =>
    (Regex.matchA n a s caps
        (fun s2 c2 => Regex.matchA n (.star a) s2 c2 k)).orElse
      (fun _ => k s caps)
  | n, .grp i a, s, caps, k =>
    Regex.matchA n a s caps
      (fun s2 c2 => k s2 ((i, ⟨s.take (s.length - s2.length)⟩) :: c2))
  termination_by n r _ _ _ => (n, sizeOf r)

/-- Try to match the pattern at the start of `s`; on success return the
rest of the input and the captures. -/
def tryAt (r : Regex) (s : List Char) : Option (List Char × Caps) :=
  Regex.matchA (s.length + 1) r s [] (fun rest caps => some (rest, caps))

/-- The `exec` loop of a global JS regex: scan for successive
non-overlapping matches, resuming after each match (or one character
further on failure), collecting the whole match text and the captures. -/
def execLoop : Nat → Regex → List Char → List (String × Caps)
  | 0, _, _ => []
  | fuel + 1, r, s =>
    match tryAt r s with
    | some (rest, caps) =>
      (⟨s.take (s.length - rest.length)⟩, caps) :: execLoop fuel r rest
    | none =>
      match s with
      | [] => []
      | _ :: s2 => execLoop fuel r s2

/-- All matches of a global pattern over a string. -/
def execPattern (r : Regex) (s : String) : List (String × Caps) :=
  execLoop (s.data.length + 1) r s.data

/-- Concatenation of a list of regexes. -/
def rcat (l : List Regex) : Regex :=
  l.foldr Regex.cat Regex.eps

/-- A string literal regex. -/
def slit (s : String) : Regex :=
  Regex.lit s.data

/-- One-or-more repetition (`+`). -/
def rplus (r : Regex) : Regex :=
  Regex.cat r (Regex.star r)

/-- The class `\s`. -/
def wsCls : Regex := Regex.cls wsChar

/-- The pattern `\s*`. -/
def ws0 : Regex := Regex.star wsCls

/-- The pattern `\s+`. -/
def ws1 : Regex := rplus wsCls

/-- The pattern `\w+`. -/
def word1 : Regex := rplus (Regex.cls wordChar)

/-- The class `['"]` (single or double quote). -/
def quoteCls : Regex := Regex.cls (fun c => c = '"' || c = Char.ofNat 39)

/-- The pattern `[^'"]+`. -/
def notQuote1 : Regex := rplus (Regex.cls (fun c => !(c = '"' || c = Char.ofNat 39)))

/-- The pattern `[^}]+`. -/
def notRBrace1 : Regex := rplus (Regex.cls (fun c => !(c = Char.ofNat 0x7d)))

/-- Import pattern 1 of `extractImports`:
the regex `import\s+(?:\x7b\s*([^\x7d]+)\s*\x7d|(\w+))\s+from\s+['"]([^'"]+)['"]`. -/
def impP1 : Regex :=
  rcat [slit "import", ws1,
    Regex.alt
      (rcat [slit "\x7b", ws0, Regex.grp 1 notRBrace1, ws0, slit "\x7d"])
      (Regex.grp 2 word1),
    ws1, slit "from", ws1, quoteCls, Regex.grp 3 notQuote1, quoteCls]

/-- Import pattern 2: the regex `from\s+['"]([^'"]+)['"]\s+import`. -/
def impP2 : Regex :=
  rcat [slit "from", ws1, quoteCls, Regex.grp 1 notQuote1, quoteCls, ws1,
    slit "import"]

/-- Import pattern 3: the regex `require\s*\(['"]([^'"]+)['"]\)`. -/
def impP3 : Regex :=
  rcat [slit "require", ws0, slit "(", quoteCls, Regex.grp 1 notQuote1,
    quoteCls, slit ")"]

/-- Import pattern 4: the regex `use\s+(\w+(?:::\w+)*)`. -/
def impP4 : Regex :=
  rcat [slit "use", ws1,
    Regex.grp 1 (Regex.cat word1 (Regex.star (Regex.cat (slit "::") word1)))]

/-- The value pushed for each import match:
`match[3] || match[1] || match[2] || match[0]`. -/
def pickImport (m : String × Caps) : String :=
  (jsOrS (capGet m.2 3) (jsOrS (capGet m.2 1)
    (jsOrS (capGet m.2 2) (some m.1)))).getD ""

/-- Embedding of `extractImports`: run the four import patterns in order,
collect the picked values, and deduplicate via `[...new Set(...)]`. -/
def extractImports (code : String) : List String :=
  jsSetDedup (([impP1, impP2, impP3, impP4].map
    (fun p => (execPattern p code).map pickImport)).flatten)

/-- Export pattern 1: the regex
`export\s+(?:default\s+)?(?:function|class|const|let|var)\s+(\w+)`. -/
def expP1 : Regex :=
  rcat [slit "export", ws1, Regex.opt (rcat [slit "default", ws1]),
    Regex.alt (slit "function") (Regex.alt (slit "class")
      (Regex.alt (slit "const") (Regex.alt (slit "let") (slit "var")))),
    ws1, Regex.grp 1 word1]

/-- Export pattern 2: the regex `export\s*\x7b\s*([^\x7d]+)\s*\x7d`. -/
def expP2 : Regex :=
  rcat [slit "export", ws0, slit "\x7b", ws0, Regex.grp 1 notRBrace1, ws0,
    slit "\x7d"]

/-- Export pattern 3: the regex `pub\s+(?:fn|struct|enum|trait|mod)\s+(\w+)`. -/
def expP3 : Regex :=
  rcat [slit "pub", ws1,
    Regex.alt (slit "fn") (Regex.alt (slit "struct")
      (Regex.alt (slit "enum") (Regex.alt (slit "trait") (slit "mod")))),
    ws1, Regex.grp 1 word1]

/-- The values pushed for one export match:
`(match[1] || "").split(",").map(trim).filter(Boolean)`. -/
def exportNames (m : String × Caps) : List String :=
  ((jsSplit ((jsOrS (capGet m.2 1) (some "")).getD "") ',').map jsTrim).filter
    (fun s => s ≠ "")

/-- Embedding of `extractExports`. -/
def extractExports (code : String) : List String :=
  jsSetDedup (([expP1, expP2, expP3].map
    (fun p => ((execPattern p code).map exportNames).flatten)).flatten)

/-- Function pattern 1: the regex `(?:async\s+)?function\s+(\w+)`. -/
def funP1 : Regex :=
  rcat [Regex.opt (rcat [slit "async", ws1]), slit "function", ws1,
    Regex.grp 1 word1]

/-- Function pattern 2: the regex `(\w+)\s*:\s*(?:async\s+)?\([^)]*\)\s*=>`. -/
def funP2 : Regex :=
  rcat [Regex.grp 1 word1, ws0, slit ":", ws0,
    Regex.opt (rcat [slit "async", ws1]), slit "(",
    Regex.star (Regex.cls (fun c => !(c = ')'))), slit ")", ws0, slit "=>"]

/-- Function pattern 3: the regex
`(?:const|let)\s+(\w+)\s*=\s*(?:async\s+)?\([^)]*\)\s*=>`. -/
def funP3 : Regex :=
  rcat [Regex.alt (slit "const") (slit "let"), ws1, Regex.grp 1 word1, ws0,
    slit "=", ws0, Regex.opt (rcat [slit "async", ws1]), slit "(",
    Regex.star (Regex.cls (fun c => !(c = ')'))), slit ")", ws0, slit "=>"]

/-- Function pattern 4: the regex `fn\s+(\w+)`. -/
def funP4 : Regex := rcat [slit "fn", ws1, Regex.grp 1 word1]

/-- Function pattern 5: the regex `def\s+(\w+)`. -/
def funP5 : Regex := rcat [slit "def", ws1, Regex.grp 1 word1]

/-- Embedding of `extractFunctionSignatures`: push `match[1]` for each
match of each pattern, then deduplicate. -/
def extractFunctionSignatures (code : String) : List String :=
  jsSetDedup (([funP1, funP2, funP3, funP4, funP5].map
    (fun p => (execPattern p code).map (fun m => (capGet m.2 1).getD ""))).flatten)

/-- Class pattern 1: the regex `class\s+(\w+)`. -/
def clsP1 : Regex := rcat [slit "class", ws1, Regex.grp 1 word1]

/-- Class pattern 2: the regex `struct\s+(\w+)`. -/
def clsP2 : Regex := rcat [slit "struct", ws1, Regex.grp 1 word1]

/-- Class pattern 3: the regex `interface\s+(\w+)`. -/
def clsP3 : Regex := rcat [slit "interface", ws1, Regex.grp 1 word1]

/-- Class pattern 4: the regex `type\s+(\w+)\s*=`. -/
def clsP4 : Regex := rcat [slit "type", ws1, Regex.grp 1 word1, ws0, slit "="]

/-- Embedding of `extractClassNames`. -/
def extractClassNames (code : String) : List String :=
  jsSetDedup (([clsP1, clsP2, clsP3, clsP4].map
    (fun p => (execPattern p code).map (fun m => (capGet m.2 1).getD ""))).flatten)

/-- Embedding of `extractErrorPatterns`: keep the lines mentioning a
TODO/FIXME/HACK/XXX/BUG marker, trim each to its first 100 characters,
and truncate the whole result to 10 entries (the cap is applied inside
the extractor; the result is not deduplicated). -/
def extractErrorPatterns (code : String) : List String :=
  (((jsSplit code '\n').filter (fun l =>
      jsIncludes l "TODO" || jsIncludes l "FIXME" || jsIncludes l "HACK" ||
      jsIncludes l "XXX" || jsIncludes l "BUG")).map
    (fun l => jsTake (jsTrim l) 100)).take 10

/-- Tool input record: the optional fields of the hook's `tool_input`
payload that the source reads (all accesses in the source go through
optional chaining or truthiness checks, so a missing whole payload is
equivalent to a payload with every field absent). -/
structure ToolInput where
  file_path : Option String
  command : Option String
  pattern : Option String
  path : Option String
  url : Option String
  query : Option String
deriving DecidableEq

/-- A tool input with every field absent. -/
def emptyToolInput : ToolInput :=
  ⟨none, none, none, none, none, none⟩

/-- JSON values, for the embedding of `JSON.parse` used by the Glob
renderer. Numbers are kept as their lexeme; only acceptance matters. -/
inductive Json where
  | null : Json
  | jbool : Bool → Json
  | num : String → Json
  | str : String → Json
  | arr : List Json → Json
  | obj : List (String × Json) → Json

/-- JSON whitespace. -/
def jsonWs (c : Char) : Bool :=
  c = ' ' || c = '\t' || c = '\n' || c = '\r'

/-- Parse the body of a JSON string after the opening quote. -/
def parseJStr : Nat → List Char → Option (List Char × List Char)
  | 0, _ => none
  | _, [] => none
  | fuel + 1, c :: s =>
    if c = '"' then some ([], s)
    else if c = '\\' then
      match s with
      | [] => none
      | d :: s2 =>
        if d = '"' || d = '\\' || d = '/' then
          (parseJStr fuel s2).map (fun r => (d :: r.1, r.2))
        else if d = 'b' then
          (parseJStr fuel s2).map (fun r => (Char.ofNat 8 :: r.1, r.2))
        else if d = 'f' then
          (parseJStr fuel s2).map (fun r => (Char.ofNat 12 :: r.1, r.2))
        else if d = 'n' then
          (parseJStr fuel s2).map (fun r => ('\n' :: r.1, r.2))
        else if d = 'r' then
          (parseJStr fuel s2).map (fun r => ('\r' :: r.1, r.2))
        else if d = 't' then
          (parseJStr fuel s2).map (fun r => ('\t' :: r.1, r.2))
        else if d = 'u' then
          match s2 with
          | h1 :: h2 :: h3 :: h4 :: s3 =>
            if isHex h1 && isHex h2 && isHex h3 && isHex h4 then
              let v := 4096 * hexVal h1 + 256 * hexVal h2 + 16 * hexVal h3 + hexVal h4
              (parseJStr fuel s3).map (fun r => (Char.ofNat v :: r.1, r.2))
            else none
          | _ => none
        else none
    else if c.val < 32 then none
    else (parseJStr fuel s).map (fun r => (c :: r.1, r.2))
where
  isHex (c : Char) : Bool :=
    c.isDigit || ('a' ≤ c && c ≤ 'f') || ('A' ≤ c && c ≤ 'F')
  hexVal (c : Char) : Nat :=
    if c.isDigit then c.toNat - 48
    else if 'a' ≤ c && c ≤ 'f' then c.toNat - 87
    else if 'A' ≤ c && c ≤ 'F' then c.toNat - 55
    else 0

/-- Parse a JSON number, returning its lexeme and the rest. -/
def parseJNum (s : List Char) : Option (List Char × List Char) :=
  let (neg, s1) := match s with
    | '-' :: t => ([('-' : Char)], t)
    | _ => ([], s)
  match s1 with
  | [] => none
  | c :: _ =>
    if !c.isDigit then none
    else
      let intPart := s1.takeWhile Char.isDigit
      let rest1 := s1.dropWhile Char.isDigit
      if intPart.length > 1 && intPart.headD '0' = '0' then none
      else
        let (fracPart, rest2) :=
          match rest1 with
          | '.' :: t =>
            let ds := t.takeWhile Char.isDigit
            if ds = [] then ([('!' : Char)], rest1)
            else (('.' :: ds), t.dropWhile Char.isDigit)
          | _ => ([], rest1)
        if fracPart = [('!' : Char)] then none
        else
          let (expPart, rest3) :=
            match rest2 with
            | e :: t =>
              if e = 'e' || e = 'E' then
                let (sgn, t2) := match t with
                  | '+' :: u => ([('+' : Char)], u)
                  | '-' :: u => ([('-' : Char)], u)
                  | _ => ([], t)
                let ds := t2.takeWhile Char.isDigit
                if ds = [] then ([('!' : Char)], rest2)
                else ((e :: sgn ++ ds), t2.dropWhile Char.isDigit)
              else ([], rest2)
            | [] => ([], rest2)
          if expPart = [('!' : Char)] then none
          else some (neg ++ intPart ++ fracPart ++ expPart, rest3)

mutual

/-- Parse one JSON value (leading whitespace already skipped). -/
def parseJVal : Nat → List Char → Option (Json × List Char)
  | 0, _ => none
  | fuel + 1, s =>
    match s with
    | [] => none
    | c :: t =>
      if c = '"' then
        (parseJStr (t.length + 1) t).map (fun r => (Json.str ⟨r.1⟩, r.2))
      else if c = Char.ofNat 0x7b then
        parseJObj fuel (t.dropWhile jsonWs)
      else if c = '[' then
        parseJArr fuel (t.dropWhile jsonWs)
      else
        match dropLit "true".data s with
        | some r => some (Json.jbool true, r)
        | none =>
          match dropLit "false".data s with
          | some r => some (Json.jbool false, r)
          | none =>
            match dropLit "null".data s with
            | some r => some (Json.null, r)
            | none =>
              (parseJNum s).map (fun r => (Json.num ⟨r.1⟩, r.2))

/-- Parse the members of a JSON object after `{` and whitespace. -/
def parseJObj : Nat → List Char → Option (Json × List Char)
  | 0, _ => none
  | fuel + 1, s =>
    match s with
    | c :: t =>
      if c = Char.ofNat 0x7d then some (Json.obj [], t)
      else
        (parseJMembers fuel s).bind (fun r =>
          match r.2 with
          | d :: u =>
            if d = Char.ofNat 0x7d then some (Json.obj r.1, u) else none
          | [] => none)
    | [] => none

/-- Parse a comma-separated list of `"key": value` members. -/
def parseJMembers : Nat → List Char →
    Option (List (String × Json) × List Char)
  | 0, _ => none
  | fuel + 1, s =>
    match s with
    | c :: t =>
      if c = '"' then
        (parseJStr (t.length + 1) t).bind (fun kr =>
          match kr.2.dropWhile jsonWs with
          | ':' :: u =>
            (parseJVal fuel (u.dropWhile jsonWs)).bind (fun vr =>
              match vr.2.dropWhile jsonWs with
              | ',' :: w =>
                (parseJMembers fuel (w.dropWhile jsonWs)).map (fun mr =>
                  ((⟨kr.1⟩, vr.1) :: mr.1, mr.2))
              | rest => some ([(⟨kr.1⟩, vr.1)], rest))
          | _ => none)
      else none
    | [] => none

/-- Parse the elements of a JSON array after `[` and whitespace. -/
def parseJArr : Nat → List Char → Option (Json × List Char)
  | 0, _ => none
  | fuel + 1, s =>
    match s with
    | c :: t =>
      if c = ']' then some (Json.arr [], t)
      else
        (parseJElems (fuel + 1) s).bind (fun r =>
          match r.2 with
          | d :: u => if d = ']' then some (Json.arr r.1, u) else none
          | [] => none)
    | [] => none

/-- Parse a comma-separated list of JSON values. -/
def parseJElems : Nat → List Char → Option (List Json × List Char)
  | 0, _ => none
  | fuel + 1, s =>
    (parseJVal fuel s).bind (fun vr =>
      match vr.2.dropWhile jsonWs with
      | ',' :: w =>
        (parseJElems fuel (w.dropWhile jsonWs)).map (fun er =>
          (vr.1 :: er.1, er.2))
      | rest => some ([vr.1], rest))

end

/-- Embedding of `JSON.parse`: `none` models a thrown `SyntaxError`. -/
def jsonParse (s : String) : Option Json :=
  match parseJVal (s.data.length + 1) (s.data.dropWhile jsonWs) with
  | some (v, rest) => if rest.dropWhile jsonWs = [] then some v else none
  | none => none

/-- Is a JSON number lexeme the number zero (the only falsy JSON
number): every digit of its integer and fraction parts is `0`. -/
def jsonNumIsZero (s : String) : Bool :=
  ((s.data.takeWhile (fun c => !(c = 'e' || c = 'E'))).filter
    Char.isDigit).all (fun c => c = '0')

/-- JS truthiness of a JSON value. -/
def jsonTruthy : Json → Bool
  | Json.null => false
  | Json.jbool b => b
  | Json.num s => !(jsonNumIsZero s)
  | Json.str s => !(s = "")
  | Json.arr _ => true
  | Json.obj _ => true

/-- The catch-branch fallback of the Glob renderer:
`output.split("\n").filter(Boolean)`. -/
def globFallbackFiles (output : String) : List String :=
  (jsSplit output '\n').filter (fun s => s ≠ "")

/-- The value of `files` after the Glob renderer's try/catch, as a JSON
value.  `JSON.parse` throwing (invalid JSON) and the `parsed.filenames`
access throwing (a parsed `null`) are both caught inside the try, so
they fall back to newline splitting; otherwise `files` is
`parsed.filenames || []` — the `filenames` field when it is truthy
(JS duplicate keys keep the last occurrence), `[]` when the field is
missing or falsy or the parse result is a non-object (property access
on a boxed primitive or an array yields `undefined`). -/
def globFilesValue (output : String) : Json :=
  match jsonParse output with
  | none => Json.arr ((globFallbackFiles output).map Json.str)
  | some Json.null => Json.arr ((globFallbackFiles output).map Json.str)
  | some (Json.obj kvs) =>
    match (kvs.reverse.find? (fun p => p.1 = "filenames")).map
        (fun p => p.2) with
    | some fv => if jsonTruthy fv then fv else Json.arr []
    | none => Json.arr []
  | some _ => Json.arr []

/-- All entries of a JSON array as strings, or `none` as soon as one is
not a string (on which the renderer's `f.split` would throw). -/
def allStrings : List Json → Option (List String)
  | [] => some []
  | Json.str s :: rest => (allStrings rest).map (fun l => s :: l)
  | _ :: _ => none

/-- Result record of `compressToolOutput`. -/
structure CompressionResult where
  compressed : String
  wasCompressed : Bool
  originalSize : Nat
deriving DecidableEq

/-- The hard ceiling on a compressed rendering (`TARGET_COMPRESSED_SIZE`). -/
def TARGET_COMPRESSED_SIZE : Nat := 2000

/-- Outputs at or below this length are stored untouched (`COMPRESSION_THRESHOLD`). -/
def COMPRESSION_THRESHOLD : Nat := 3000

/-- Embedding of `compressFileRead`: header, bucketed extractor results,
then the first 10 and last 5 raw lines. -/
def compressFileRead (toolInput : ToolInput) (output : String) : String :=
  let filePath := jsorStr toolInput.file_path "unknown"
  let fileName := jsorStr (some (jsLastSeg filePath)) "file"
  let lines := jsSplit output '\n'
  let totalLines := lines.length
  let imports := extractImports output
  let exps := extractExports output
  let functions := extractFunctionSignatures output
  let classes := extractClassNames output
  let errors := extractErrorPatterns output
  let parts := ["📄 File: " ++ fileName ++ " (" ++ toString totalLines ++ " lines)"]
  let parts := parts ++ (if imports.length > 0 then
    ["\n📦 Imports: " ++ String.intercalate ", " (imports.take 10) ++
      (if imports.length > 10 then
        " (+" ++ toString (imports.length - 10) ++ " more)" else "")] else [])
  let parts := parts ++ (if exps.length > 0 then
    ["\n📤 Exports: " ++ String.intercalate ", " (exps.take 10) ++
      (if exps.length > 10 then
        " (+" ++ toString (exps.length - 10) ++ " more)" else "")] else [])
  let parts := parts ++ (if functions.length > 0 then
    ["\n⚡ Functions: " ++ String.intercalate ", " (functions.take 10) ++
      (if functions.length > 10 then
        " (+" ++ toString (functions.length - 10) ++ " more)" else "")] else [])
  let parts := parts ++ (if classes.length > 0 then
    ["\n🏗️ Classes: " ++ String.intercalate ", " classes] else [])
  let parts := parts ++ (if errors.length > 0 then
    ["\n⚠️ Errors/TODOs: " ++ String.intercalate "; " (errors.take 5)] else [])
  let contextLines := ["\n--- First 10 lines ---"] ++ lines.take 10 ++
    ["\n--- Last 5 lines ---"] ++ lastN lines 5
  let parts := parts ++ [String.intercalate "\n" contextLines]
  String.intercalate "" parts

/-- Embedding of `compressBashOutput`. -/
def compressBashOutput (toolInput : ToolInput) (output : String) : String :=
  let command := jsorStr toolInput.command "command"
  let shortCmd := jsTake ((jsSplit command '\n').headD "") 100
  let lines := jsSplit output '\n'
  let errorLines := lines.filter (fun l =>
    jsIncludes (jsToLower l) "error" || jsIncludes (jsToLower l) "failed" ||
    jsIncludes (jsToLower l) "exception" || jsIncludes (jsToLower l) "warning")
  let successLines := lines.filter (fun l =>
    jsIncludes (jsToLower l) "success" || jsIncludes (jsToLower l) "passed" ||
    jsIncludes (jsToLower l) "completed" || jsIncludes (jsToLower l) "done")
  let parts := ["🖥️ Command: " ++ shortCmd]
  let parts := parts ++ (if errorLines.length > 0 then
    ["\n❌ Errors (" ++ toString errorLines.length ++ "):",
     String.intercalate "\n" (errorLines.take 10)] else [])
  let parts := parts ++ (if successLines.length > 0 then
    ["\n✅ Success indicators:",
     String.intercalate "\n" (successLines.take 5)] else [])
  let parts := parts ++ ["\n📊 Output: " ++ toString lines.length ++ " lines total"]
  let parts := parts ++ (if lines.length > 20 then
    ["\n--- First 10 lines ---", String.intercalate "\n" (lines.take 10),
     "\n--- Last 5 lines ---", String.intercalate "\n" (lastN lines 5)]
    else
    ["\n--- Full output ---", String.intercalate "\n" lines])
  String.intercalate "" parts

/-- The ` ^([^:]+): ` prefix match of one grep output line: the text
before the first colon, provided it is non-empty and a colon follows. -/
def grepFilePart (line : String) : Option String :=
  let pre := line.data.takeWhile (fun c => !(c = ':'))
  if pre ≠ [] ∧ pre.length < line.data.length then some ⟨pre⟩ else none

/-- Embedding of `compressGrepOutput`. -/
def compressGrepOutput (toolInput : ToolInput) (output : String) : String :=
  let pattern := jsorStr toolInput.pattern "pattern"
  let lines := (jsSplit output '\n').filter (fun s => s ≠ "")
  let files := jsSetDedup (lines.filterMap grepFilePart)
  let parts := ["🔍 Grep: \"" ++ jsTake pattern 50 ++ "\"",
    "📁 Found in " ++ toString files.length ++ " files, " ++
      toString lines.length ++ " matches"]
  let parts := parts ++ (if files.length > 0 then
    ["\n📂 Files: " ++ String.intercalate ", " (files.take 15) ++
      (if files.length > 15 then
        " (+" ++ toString (files.length - 15) ++ " more)" else "")] else [])
  let parts := parts ++ ["\n--- Top matches ---",
    String.intercalate "\n" (lines.take 10)]
  let parts := parts ++ (if lines.length > 10 then
    ["\n... and " ++ toString (lines.length - 10) ++ " more matches"] else [])
  String.intercalate "" parts

/-- JS `f.split("/").slice(0, -1).join("/")`: all but the last segment. -/
def dirOfPath (f : String) : String :=
  String.intercalate "/" ((jsSplit f '/').dropLast)

/-- Insert one directory entry, JS object upsert: append the file to an
existing key's list or append a new key (insertion order preserved). -/
def dirUpsert (acc : List (String × List String)) (dir file : String) :
    List (String × List String) :=
  if acc.any (fun p => p.1 = dir) then
    acc.map (fun p => if p.1 = dir then (p.1, p.2 ++ [file]) else p)
  else acc ++ [(dir, [file])]

/-- Stable insertion of one entry into a list sorted by descending file
count (the JS stable `sort((a, b) => b[1].length - a[1].length)`). -/
def insertByCount (acc : List (String × List String))
    (x : String × List String) : List (String × List String) :=
  match acc with
  | [] => [x]
  | y :: ys =>
    if y.2.length < x.2.length then x :: y :: ys
    else y :: insertByCount ys x

/-- Stable sort by descending file count. -/
def sortByCountDesc (l : List (String × List String)) :
    List (String × List String) :=
  l.foldl insertByCount []

/-- The rendering of the Glob summary for an established string file
list (the code after `files.forEach` has succeeded). -/
def renderGlobFiles (pattern : String) (files : List String) : String :=
  let byDir := files.foldl (fun acc f =>
    let dir := jsorStr (some (dirOfPath f)) "/"
    let file := jsorStr (some (jsLastSeg f)) f
    dirUpsert acc dir file) []
  let parts := ["📂 Glob: \"" ++ jsTake pattern 50 ++ "\"",
    "📁 Found " ++ toString files.length ++ " files in " ++
      toString byDir.length ++ " directories"]
  let topDirs := (sortByCountDesc byDir).take 5
  let parts := parts ++ ["\n--- Top directories ---"]
  let parts := parts ++ topDirs.map (fun p =>
    let shortDir := String.intercalate "/" (lastN (jsSplit p.1 '/') 3)
    shortDir ++ "/ (" ++ toString p.2.length ++ " files)")
  let parts := parts ++ ["\n--- Sample files ---"]
  let parts := parts ++
    [String.intercalate ", " ((files.take 15).map jsLastSeg)]
  String.intercalate "" parts

/-- Embedding of `compressGlobOutput`: parse the structured file list
(falling back to newline splitting when the try/catch fires), group by
directory and render top directories plus a sample of file names.
`none` models a thrown `TypeError`: `files.forEach` and `f.split` sit
outside the try/catch, so a truthy non-array `filenames` or a
non-string entry makes the renderer throw and the hook store nothing. -/
def compressGlobOutput (toolInput : ToolInput) (output : String) :
    Option String :=
  let pattern := jsorStr toolInput.pattern "pattern"
  match globFilesValue output with
  | Json.arr items =>
    match allStrings items with
    | some files => some (renderGlobFiles pattern files)
    | none => none
  | _ => none

/-- Embedding of `compressEditOutput`. -/
def compressEditOutput (toolInput : ToolInput) (output : String) : String :=
  let filePath := jsorStr toolInput.file_path "unknown"
  let fileName := jsorStr (some (jsLastSeg filePath)) "file"
  String.intercalate "\n"
    ["✏️ Edited: " ++ fileName, "📝 Changes applied successfully",
     jsTake output 500]

/-- Embedding of `compressGeneric`: pass through short outputs, else a
line-count header plus first 15 and last 10 lines. -/
def compressGeneric (output : String) : String :=
  let lines := jsSplit output '\n'
  if lines.length ≤ 30 then output
  else
    String.intercalate "\n"
      (["📊 Output: " ++ toString lines.length ++ " lines",
        "--- First 15 lines ---"] ++ lines.take 15 ++
       ["--- Last 10 lines ---"] ++ lastN lines 10)

/-- Embedding of `truncateToTarget`: hard-truncate a rendering to the
2000-character ceiling, appending a marker when it was exceeded. -/
def truncateToTarget (text : String) : String :=
  if text.length ≤ TARGET_COMPRESSED_SIZE then text
  else jsTake text (TARGET_COMPRESSED_SIZE - 20) ++ "\n... (compressed)"

/-- The per-tool dispatch of `compressToolOutput` (the `switch` that
chooses a renderer).  `none` propagates the Glob renderer's thrown
`TypeError`; every other renderer is total. -/
def renderCompressed (toolName : String) (toolInput : ToolInput)
    (output : String) : Option String :=
  if toolName = "Read" then some (compressFileRead toolInput output)
  else if toolName = "Bash" then some (compressBashOutput toolInput output)
  else if toolName = "Grep" then some (compressGrepOutput toolInput output)
  else if toolName = "Glob" then compressGlobOutput toolInput output
  else if toolName = "Edit" || toolName = "Write" then
    some (compressEditOutput toolInput output)
  else some (compressGeneric output)

/-- Embedding of `compressToolOutput`: below the threshold the output is
returned untouched; above it the tool-specific rendering is produced and
hard-truncated to the target ceiling.  `none` propagates a `TypeError`
thrown by the Glob renderer. -/
def compressToolOutput (toolName : String) (toolInput : ToolInput)
    (output : String) : Option CompressionResult :=
  let originalSize := output.length
  if originalSize ≤ COMPRESSION_THRESHOLD then
    some ⟨output, false, originalSize⟩
  else
    (renderCompressed toolName toolInput output).map (fun compressed =>
      ⟨truncateToTarget compressed, true, originalSize⟩)

/-- The ten observation categories of the pipeline. -/
inductive ObservationType where
  | discovery | decision | problem | solution | pattern
  | warning | success | refactor | bugfix | feature
deriving DecidableEq

/-- Embedding of `classifyObservationType`: case-insensitive substring
checks in priority order (error, success, warning), then dispatch on the
tool name. -/
def classifyObservationType (toolName output : String) : ObservationType :=
  let lowerOutput := jsToLower output
  if jsIncludes lowerOutput "error" || jsIncludes lowerOutput "failed" ||
      jsIncludes lowerOutput "exception" then
    ObservationType.problem
  else if jsIncludes lowerOutput "success" || jsIncludes lowerOutput "passed" ||
      jsIncludes lowerOutput "completed" then
    ObservationType.success
  else if jsIncludes lowerOutput "warning" ||
      jsIncludes lowerOutput "deprecated" then
    ObservationType.warning
  else if toolName = "Read" || toolName = "Glob" || toolName = "Grep" then
    ObservationType.discovery
  else if toolName = "Edit" then
    if jsIncludes lowerOutput "fix" || jsIncludes lowerOutput "bug" then
      ObservationType.bugfix
    else ObservationType.refactor
  else if toolName = "Write" then ObservationType.feature
  else ObservationType.discovery

/-- Embedding of `generateSummary`: the one-line caption for a tool
invocation.  Missing `file_path` or `command` fall back to the literal
placeholders `file` and `command`; a missing `pattern` (or `url`/`query`)
is interpolated by the JS template literal as the text `undefined`. -/
def generateSummary (toolName : String) (toolInput : ToolInput)
    (toolOutput : String) : String :=
  if toolName = "Read" then
    let fileName := match toolInput.file_path with
      | some p => jsorStr (some (jsLastSeg p)) "file"
      | none => "file"
    let lines := (jsSplit toolOutput '\n').length
    "Read " ++ fileName ++ " (" ++ toString lines ++ " lines)"
  else if toolName = "Edit" then
    let fileName := match toolInput.file_path with
      | some p => jsorStr (some (jsLastSeg p)) "file"
      | none => "file"
    "Edited " ++ fileName
  else if toolName = "Write" then
    let fileName := match toolInput.file_path with
      | some p => jsorStr (some (jsLastSeg p)) "file"
      | none => "file"
    "Created " ++ fileName
  else if toolName = "Bash" then
    let shortCmd := match toolInput.command with
      | some c => jsorStr (some (jsTake ((jsSplit c '\n').headD "") 50)) "command"
      | none => "command"
    let hasError := jsIncludes (jsToLower toolOutput) "error" ||
      jsIncludes (jsToLower toolOutput) "failed"
    if hasError then "Command failed: " ++ shortCmd else "Ran: " ++ shortCmd
  else if toolName = "Grep" then
    let matchCount := ((jsSplit toolOutput '\n').filter (fun s => s ≠ "")).length
    "Found " ++ toString matchCount ++ " matches for \"" ++
      optSlice toolInput.pattern 30 ++ "\""
  else if toolName = "Glob" then
    let matchCount := ((jsSplit toolOutput '\n').filter (fun s => s ≠ "")).length
    "Found " ++ toString matchCount ++ " files matching \"" ++
      optSlice toolInput.pattern 30 ++ "\""
  else if toolName = "WebFetch" || toolName = "WebSearch" then
    "Fetched: " ++ optSlice (jsOrS toolInput.url toolInput.query) 50
  else toolName ++ " completed"

/-- Metadata attached to a stored observation (the well-known keys the
source writes into the open metadata map). -/
structure Metadata where
  files : Option (List String)
  command : Option String
  pattern : Option String
  searchPath : Option String
  compressed : Option Bool
  originalSize : Option Nat
  compressedSize : Option Nat
deriving DecidableEq

/-- Metadata with no keys set. -/
def emptyMetadata : Metadata :=
  ⟨none, none, none, none, none, none, none⟩

/-- Truthiness filter on an optional string (JS `if (x)` on a field). -/
def truthy : Option String → Option String
  | some s => if s = "" then none else some s
  | none => none

/-- Embedding of `extractMetadata`. -/
def extractMetadata (toolName : String) (toolInput : ToolInput) : Metadata :=
  if toolName = "Read" || toolName = "Edit" || toolName = "Write" then
    { emptyMetadata with files := (truthy toolInput.file_path).map (fun p => [p]) }
  else if toolName = "Bash" then
    { emptyMetadata with
        command := (truthy toolInput.command).map (fun c => jsTake c 200) }
  else if toolName = "Grep" || toolName = "Glob" then
    { emptyMetadata with
        pattern := truthy toolInput.pattern
        searchPath := truthy toolInput.path }
  else emptyMetadata

/-- The tools observed by the post-tool-use hook (`OBSERVED_TOOLS`). -/
def OBSERVED_TOOLS : List String :=
  ["Read", "Edit", "Write", "Update", "Bash", "Grep", "Glob", "WebFetch",
   "WebSearch", "Task", "NotebookEdit"]

/-- Minimum output length for capture (`MIN_OUTPUT_LENGTH`). -/
def MIN_OUTPUT_LENGTH : Nat := 50

/-- Edit-like tools that are always captured (`ALWAYS_CAPTURE_TOOLS`). -/
def ALWAYS_CAPTURE_TOOLS : List String :=
  ["Edit", "Write", "Update", "NotebookEdit"]

/-- Maximum stored content length before the hook's own truncation
(`MAX_OUTPUT_LENGTH`). -/
def MAX_OUTPUT_LENGTH : Nat := 2500

/-- The synthetic body substituted for a short always-capture output. -/
def syntheticBody (toolName : String) (toolInput : ToolInput) : String :=
  let filePath := jsorStr toolInput.file_path "unknown file"
  let fileName := jsorStr (some (jsLastSeg filePath)) "file"
  "File modified: " ++ fileName ++ "\nPath: " ++ filePath ++ "\nTool: " ++
    toolName

/-- The effective output the hook captures: the raw output, or the
synthetic body when an always-capture tool produced fewer than
`MIN_OUTPUT_LENGTH` characters. -/
def hookEffectiveOutput (toolName : String) (toolInput : ToolInput)
    (toolOutput : String) : String :=
  if ALWAYS_CAPTURE_TOOLS.contains toolName &&
      toolOutput.length < MIN_OUTPUT_LENGTH then
    syntheticBody toolName toolInput
  else toolOutput

/-- The hook's stored-content truncation:
`compressed.length > MAX_OUTPUT_LENGTH ? compressed.slice(0, MAX_OUTPUT_LENGTH) + "\n... (compressed)" : compressed`. -/
def hookContent (compressed : String) : String :=
  if compressed.length > MAX_OUTPUT_LENGTH then
    jsTake compressed MAX_OUTPUT_LENGTH ++ "\n... (compressed)"
  else compressed

/-- The observation record the hook passes to `mind.remember`. -/
structure HookStored where
  type : ObservationType
  summary : String
  content : String
  metadata : Metadata
deriving DecidableEq

/-- Metadata assembly of the hook: tool metadata plus the compression
fields when compression occurred. -/
def hookMetadata (toolName : String) (toolInput : ToolInput)
    (res : CompressionResult) : Metadata :=
  let metadata := extractMetadata toolName toolInput
  if res.wasCompressed then
    { metadata with
        compressed := some true
        originalSize := some res.originalSize
        compressedSize := some res.compressed.length }
  else metadata

/-- The observation built from an effective output that passed the gate;
`none` propagates a compression-time `TypeError`, on which `main`'s
catch stores nothing. -/
def buildObservation (toolName : String) (toolInput : ToolInput)
    (effectiveOutput : String) : Option HookStored :=
  (compressToolOutput toolName toolInput effectiveOutput).map (fun res =>
    let observationType := classifyObservationType toolName res.compressed
    let summary := generateSummary toolName toolInput effectiveOutput
    let content := hookContent res.compressed
    let metadata := hookMetadata toolName toolInput res
    ⟨observationType, summary, content, metadata⟩)

/-- Embedding of the post-tool-use hook's `main`: the gating decision
and, when an observation is stored, the record passed to the store.  The
first component is the `continue` flag of the envelope written to the
host, which is `true` on every path. -/
def postToolUse (toolName : Option String) (toolInput : ToolInput)
    (toolOutput : String) : Bool × Option HookStored :=
  match toolName with
  | none => (true, none)
  | some tn =>
    if !(OBSERVED_TOOLS.contains tn) then (true, none)
    else
      let alwaysCapture := ALWAYS_CAPTURE_TOOLS.contains tn
      if !alwaysCapture &&
          (toolOutput = "" || toolOutput.length < MIN_OUTPUT_LENGTH) then
        (true, none)
      else
        let effectiveOutput := hookEffectiveOutput tn toolInput toolOutput
        if jsIncludes effectiveOutput "<system-reminder>" ||
            jsIncludes effectiveOutput "<memvid-mind-context>" then
          (true, none)
        else (true, buildObservation tn toolInput effectiveOutput)

/-- An observation as the context assembler sees it (the record mapped
from a store frame; `type` is a plain string at runtime, since frames
may carry the fallback label `observation`). -/
structure Observation where
  id : String
  timestamp : Nat
  type : String
  tool : Option String
  summary : String
  content : String
  metadata : Metadata
deriving DecidableEq

/-- A stored session summary (shape only; needed as the element type of
`sessionSummaries`). -/
structure SessionSummary where
  id : String
  startTime : Nat
  endTime : Nat
  observationCount : Nat
  keyDecisions : List String
  filesModified : List String
  summary : String
deriving DecidableEq

/-- The context payload assembled at session start. -/
structure InjectedContext where
  recentObservations : List Observation
  relevantMemories : List Observation
  sessionSummaries : List SessionSummary
  tokenCount : Nat
deriving DecidableEq

/-- The token estimate of one observation line, as the assembler renders
it: `estimateTokens("[" + type + "] " + summary)`. -/
def obsEst (obs : Observation) : Nat :=
  estimateTokens ("[" ++ obs.type ++ "] " ++ obs.summary)

/-- The token-budget loop of `Mind.getContext`: walk the recent
observations, accumulate each estimate, and stop at the first
observation whose estimate would push the total over the budget. -/
def contextTokenCount (maxTokens : Nat) : List Observation → Nat → Nat
  | [], tokenCount => tokenCount
  | obs :: rest, tokenCount =>
    let tokens := obsEst obs
    if maxTokens < tokenCount + tokens then tokenCount
    else contextTokenCount maxTokens rest (tokenCount + tokens)

/-- The pure tail of `Mind.getContext`: given the fetched recent
observations and the query search hits, assemble the injected context.
The budget gates only the reported `tokenCount`; the fetched lists are
returned unmodified and `sessionSummaries` is left empty. -/
def getContextAssemble (recentObservations relevantMemories : List Observation)
    (maxContextTokens : Nat) : InjectedContext :=
  ⟨recentObservations, relevantMemories, [],
    contextTokenCount maxContextTokens recentObservations 0⟩

/-- Does an observation qualify as a key decision: its type is
`decision`, or its summary (case-insensitively) mentions `chose` or
`decided`. -/
def qualifiesDecision (obs : Observation) : Bool :=
  obs.type = "decision" || jsIncludes (jsToLower obs.summary) "chose" ||
    jsIncludes (jsToLower obs.summary) "decided"

/-- The `metadata.files` contribution of one observation (`if (files)`
is truthy for any present array, including an empty one). -/
def obsFiles (obs : Observation) : List String :=
  match obs.metadata.files with
  | some fs => fs
  | none => []

/-- Transcript pattern 1: the regex `(?:Read|Edit|Write)[^"]*"([^"]+)"`. -/
def traP1 : Regex :=
  rcat [Regex.alt (slit "Read") (Regex.alt (slit "Edit") (slit "Write")),
    Regex.star (Regex.cls (fun c => !(c = '"'))), slit "\"",
    Regex.grp 1 (rplus (Regex.cls (fun c => !(c = '"')))), slit "\""]

/-- Transcript pattern 2: the regex `file_path["\s:]+([^\s"]+)`. -/
def traP2 : Regex :=
  rcat [slit "file_path",
    rplus (Regex.cls (fun c => c = '"' || wsChar c || c = ':')),
    Regex.grp 1 (rplus (Regex.cls (fun c => !(wsChar c) && !(c = '"'))))]

/-- Paths mined from a transcript, keeping only those outside
`node_modules` and not starting with a dot (an empty transcript is
falsy, so nothing is mined from it). -/
def transcriptFiles (transcript : String) : List String :=
  if transcript = "" then []
  else
    ([traP1, traP2].map (fun p =>
      (execPattern p transcript).filterMap (fun m =>
        match capGet m.2 1 with
        | some path =>
          if path ≠ "" ∧ jsIncludes path "node_modules" = false ∧
              jsStartsWith path "." = false then some path else none
        | none => none))).flatten

/-- The draft produced by the session synthesizer. -/
structure SessionSummaryDraft where
  keyDecisions : List String
  filesModified : List String
  summary : String
deriving DecidableEq

/-- Count of observations of one type string. -/
def countType (observations : List Observation) (t : String) : Nat :=
  (observations.filter (fun o => o.type = t)).length

/-- Embedding of `generateSessionSummary`: scan the observations for key
decisions and modified files, optionally mine the transcript for paths,
build the per-type narrative, and cap the lists at 10 and 20 entries. -/
def generateSessionSummary (observations : List Observation)
    (transcript : String) : SessionSummaryDraft :=
  let keyDecisions := observations.foldl (fun acc obs =>
    if qualifiesDecision obs then acc ++ [obs.summary] else acc) []
  let filesModified := observations.foldl (fun acc obs =>
    (obsFiles obs).foldl setAdd acc) []
  let filesModified := (transcriptFiles transcript).foldl setAdd filesModified
  let summaryParts : List String :=
    (if 0 < countType observations "feature" then
      ["Added " ++ toString (countType observations "feature") ++ " feature(s)"]
     else []) ++
    (if 0 < countType observations "bugfix" then
      ["Fixed " ++ toString (countType observations "bugfix") ++ " bug(s)"]
     else []) ++
    (if 0 < countType observations "refactor" then
      ["Refactored " ++ toString (countType observations "refactor") ++
        " item(s)"]
     else []) ++
    (if 0 < countType observations "discovery" then
      ["Made " ++ toString (countType observations "discovery") ++
        " discovery(ies)"]
     else []) ++
    (if 0 < countType observations "problem" then
      ["Encountered " ++ toString (countType observations "problem") ++
        " problem(s)"]
     else []) ++
    (if 0 < countType observations "solution" then
      ["Found " ++ toString (countType observations "solution") ++
        " solution(s)"]
     else [])
  let summary := if summaryParts.length > 0 then
      String.intercalate ". " summaryParts ++ "."
    else "Session with " ++ toString observations.length ++ " observations."
  ⟨keyDecisions.take 10, filesModified.take 20, summary⟩

theorem strLength_data (s : String) : s.length = s.data.length := rfl

theorem strLength_append (a b : String) :
    (a ++ b).length = a.length + b.length := by
  cases a; cases b
  exact List.length_append ..

theorem jsTake_length (s : String) (n : Nat) :
    (jsTake s n).length = min n s.length := by
  obtain ⟨l⟩ := s
  exact List.length_take ..

/-- A string of `n` letters, used as a concrete oversized input. -/
def outA (n : Nat) : String := ⟨List.replicate n 'a'⟩

theorem outA_length (n : Nat) : (outA n).length = n := by
  simp [outA, strLength_data]

theorem truncateToTarget_length_le (s : String) :
    (truncateToTarget s).length ≤ 2000 := by
  unfold truncateToTarget TARGET_COMPRESSED_SIZE
  split
  · next h => exact h
  · next h =>
    rw [strLength_append, jsTake_length]
    have : ("\n... (compressed)" : String).length = 17 := rfl
    rw [this]
    omega

theorem hookContent_length_le (s : String) :
    (hookContent s).length ≤ 2517 := by
  unfold hookContent MAX_OUTPUT_LENGTH
  split
  · rw [strLength_append, jsTake_length]
    have : ("\n... (compressed)" : String).length = 17 := rfl
    rw [this]
    omega
  · next h => omega

/-- C2: for any tool name, tool input, and output of length at most 3000
characters, `compressToolOutput` returns normally, with the output
unchanged, `wasCompressed = false` and `originalSize` equal to the
output's length. -/
theorem claim_C2 (toolName : String) (toolInput : ToolInput) (output : String)
    (h : output.length ≤ 3000) :
    compressToolOutput toolName toolInput output =
      some ⟨output, false, output.length⟩ := by
  unfold compressToolOutput COMPRESSION_THRESHOLD
  rw [if_pos h]

theorem claim_C2_witness :
    ("hello" : String).length ≤ 3000 ∧
    compressToolOutput "Bash" emptyToolInput "hello" =
      some ⟨"hello", false, ("hello" : String).length⟩ :=
  ⟨by decide, claim_C2 "Bash" emptyToolInput "hello" (by decide)⟩

/-- C3: for any tool name, tool input, and output longer than 3000
characters, whenever `compressToolOutput` returns a result (the Glob
renderer can throw on malformed structured output, in which case nothing
is returned or stored), the returned `compressed` string never exceeds
2000 characters, `wasCompressed = true`, and whenever the tool-specific
rendering exceeded the 2000-character ceiling the result is the
rendering hard-truncated to 1980 characters with the truncation marker
appended. -/
theorem claim_C3 (toolName : String) (toolInput : ToolInput) (output : String)
    (h : 3000 < output.length) (res : CompressionResult)
    (hres : compressToolOutput toolName toolInput output = some res) :
    res.wasCompressed = true ∧
    res.compressed.length ≤ 2000 ∧
    (∀ r, renderCompressed toolName toolInput output = some r →
      2000 < r.length →
      res.compressed = jsTake r 1980 ++ "\n... (compressed)") := by
  have he : ¬(output.length ≤ COMPRESSION_THRESHOLD) := by
    unfold COMPRESSION_THRESHOLD; omega
  unfold compressToolOutput at hres
  rw [if_neg he] at hres
  match hr : renderCompressed toolName toolInput output with
  | none =>
    rw [hr] at hres
    simp at hres
  | some r0 =>
    rw [hr] at hres
    simp only [Option.map_some', Option.some.injEq] at hres
    rw [← hres]
    refine ⟨rfl, truncateToTarget_length_le _, fun r hr2 hlen2 => ?_⟩
    replace hr2 := Option.some.inj hr2
    subst hr2
    show truncateToTarget r0 = jsTake r0 1980 ++ "\n... (compressed)"
    unfold truncateToTarget TARGET_COMPRESSED_SIZE
    rw [if_neg (by omega)]

/-- The concrete compression result of the C3 witness. -/
def resTask : CompressionResult :=
  ⟨truncateToTarget (compressGeneric (outA 3001)), true, (outA 3001).length⟩

theorem claim_C3_witness :
    3000 < (outA 3001).length ∧
    compressToolOutput "Task" emptyToolInput (outA 3001) = some resTask ∧
    resTask.wasCompressed = true ∧
    resTask.compressed.length ≤ 2000 := by
  have hlen : 3000 < (outA 3001).length := by rw [outA_length]; omega
  have hrend : renderCompressed "Task" emptyToolInput (outA 3001) =
      some (compressGeneric (outA 3001)) := by
    unfold renderCompressed
    rw [if_neg (by decide), if_neg (by decide), if_neg (by decide),
      if_neg (by decide), if_neg (by decide)]
  have hcmp : compressToolOutput "Task" emptyToolInput (outA 3001) =
      some resTask := by
    unfold compressToolOutput
    rw [if_neg (show ¬((outA 3001).length ≤ COMPRESSION_THRESHOLD) from by
      unfold COMPRESSION_THRESHOLD; omega), hrend]
    rfl
  have h3 := claim_C3 "Task" emptyToolInput (outA 3001) hlen resTask hcmp
  exact ⟨hlen, hcmp, h3.1, h3.2.1⟩

/-- C5: an output that (case-insensitively) contains both `error` and
`success` classifies as `problem`, because the error check precedes the
success check; and the classifier is a total function whose result is
always one of the ten fixed categories. -/
theorem claim_C5 (toolName output : String)
    (he : jsIncludes (jsToLower output) "error" = true)
    (hs : jsIncludes (jsToLower output) "success" = true) :
    classifyObservationType toolName output = ObservationType.problem ∧
    ∀ t o : String, classifyObservationType t o ∈
      [ObservationType.discovery, ObservationType.decision,
       ObservationType.problem, ObservationType.solution,
       ObservationType.pattern, ObservationType.warning,
       ObservationType.success, ObservationType.refactor,
       ObservationType.bugfix, ObservationType.feature] := by
  constructor
  · unfold classifyObservationType
    simp [he]
  · have hall : ∀ x : ObservationType, x ∈
        [ObservationType.discovery, ObservationType.decision,
         ObservationType.problem, ObservationType.solution,
         ObservationType.pattern, ObservationType.warning,
         ObservationType.success, ObservationType.refactor,
         ObservationType.bugfix, ObservationType.feature] := by
      intro x; cases x <;> simp
    exact fun t o => hall (classifyObservationType t o)

theorem claim_C5_witness :
    classifyObservationType "Bash" "Error then Success" =
      ObservationType.problem :=
  (claim_C5 "Bash" "Error then Success" (by decide) (by decide)).1

/-- C7: the assembler returns the full fetched recent-observation list
unmodified inside the context (the budget gates only the reported token
count), the relevant memories unmodified, and an always-empty
`sessionSummaries` list. -/
theorem claim_C7 (recentObservations relevantMemories : List Observation)
    (maxContextTokens : Nat) :
    (getContextAssemble recentObservations relevantMemories
        maxContextTokens).recentObservations = recentObservations ∧
    (getContextAssemble recentObservations relevantMemories
        maxContextTokens).relevantMemories = relevantMemories ∧
    (getContextAssemble recentObservations relevantMemories
        maxContextTokens).sessionSummaries = [] :=
  ⟨rfl, rfl, rfl⟩

theorem contextTokenCount_le (mt : Nat) (l : List Observation) (acc : Nat)
    (h : acc ≤ mt) : contextTokenCount mt l acc ≤ mt := by
  induction l generalizing acc with
  | nil => exact h
  | cons o rest ih =>
    simp only [contextTokenCount]
    split
    · exact h
    · next hc => exact ih _ (by omega)

theorem contextTokenCount_spec (mt : Nat) (l : List Observation) (acc : Nat) :
    ∃ n, n ≤ l.length ∧
      contextTokenCount mt l acc = acc + ((l.take n).map obsEst).sum ∧
      ∀ h : n < l.length,
        mt < contextTokenCount mt l acc + obsEst (l.get ⟨n, h⟩) := by
  induction l generalizing acc with
  | nil =>
    exact ⟨0, Nat.le_refl _, by simp [contextTokenCount], fun h => absurd h (by simp)⟩
  | cons o rest ih =>
    by_cases hc : mt < acc + obsEst o
    · refine ⟨0, Nat.zero_le _, ?_, ?_⟩
      · simp [contextTokenCount, hc]
      · intro h
        simpa [contextTokenCount, hc] using hc
    · obtain ⟨n, hn, heq, hbound⟩ := ih (acc + obsEst o)
      refine ⟨n + 1, by simpa using hn, ?_, ?_⟩
      · simp only [contextTokenCount, if_neg hc]
        rw [heq, List.take_succ_cons, List.map_cons, List.sum_cons]
        omega
      · intro h
        have h2 : n < rest.length := by simpa using h
        have := hbound h2
        simp only [contextTokenCount, if_neg hc]
        simpa using this

/-- A concrete observation whose rendered context line estimates to
exactly 50 tokens (`[discovery] ` plus a 188-character summary gives a
200-character line). -/
def obs50 : Observation :=
  ⟨"", 0, "discovery", none, outA 188, "", emptyMetadata⟩

set_option maxRecDepth 40000 in
/-- C4: the reported `tokenCount` never exceeds the budget; the counted
observations are an initial prefix of the recent list, and the first
observation beyond the cutoff would have pushed the total over the
budget; with 30 candidates of 50 estimated tokens each and a budget of
220, exactly 4 are counted and the token count is 200. -/
theorem claim_C4 (ro rm : List Observation) (mt : Nat) :
    (getContextAssemble ro rm mt).tokenCount ≤ mt ∧
    (∃ n, n ≤ ro.length ∧
      (getContextAssemble ro rm mt).tokenCount = ((ro.take n).map obsEst).sum ∧
      ∀ h : n < ro.length,
        mt < (getContextAssemble ro rm mt).tokenCount +
          obsEst (ro.get ⟨n, h⟩)) ∧
    (getContextAssemble (List.replicate 30 obs50) [] 220).tokenCount = 200 ∧
    obsEst obs50 = 50 := by
  refine ⟨contextTokenCount_le mt ro 0 (Nat.zero_le _), ?_, by decide, by decide⟩
  obtain ⟨n, hn, heq, hbound⟩ := contextTokenCount_spec mt ro 0
  exact ⟨n, hn, by simpa using heq, fun h => hbound h⟩

theorem claim_C4_witness :
    (getContextAssemble (List.replicate 30 obs50) [] 220).tokenCount = 200 :=
  (claim_C4 (List.replicate 30 obs50) [] 220).2.2.1

theorem foldl_push_decisions (l : List Observation) (acc : List String) :
    l.foldl (fun a o => if qualifiesDecision o then a ++ [o.summary] else a)
      acc = acc ++ (l.filter qualifiesDecision).map (fun o => o.summary) := by
  induction l generalizing acc with
  | nil => simp
  | cons o rest ih =>
    by_cases hq : qualifiesDecision o
    · simp [hq, ih, List.filter_cons]
    · simp [hq, ih, List.filter_cons]

theorem foldl_files (l : List Observation) (acc : List String) :
    l.foldl (fun a o => (obsFiles o).foldl setAdd a) acc =
      ((l.map obsFiles).flatten).foldl setAdd acc := by
  induction l generalizing acc with
  | nil => rfl
  | cons o rest ih =>
    simp only [List.foldl_cons, List.map_cons, List.flatten_cons,
      List.foldl_append]
    exact ih _

/-- A concrete decision observation for the end-to-end scenario. -/
def obsD : Observation :=
  ⟨"1", 0, "decision", none, "Chose Postgres over MySQL", "", emptyMetadata⟩

/-- A concrete observation carrying `metadata.files = ["a.ts"]`. -/
def obsA2 : Observation :=
  ⟨"2", 0, "discovery", none, "Read a", "",
    ⟨some ["a.ts"], none, none, none, none, none, none⟩⟩

/-- A concrete observation carrying `metadata.files = ["b.ts"]`. -/
def obsB2 : Observation :=
  ⟨"3", 0, "discovery", none, "Read b", "",
    ⟨some ["b.ts"], none, none, none, none, none, none⟩⟩

/-- A concrete plain observation for the end-to-end scenario. -/
def obsC2 : Observation :=
  ⟨"4", 0, "discovery", none, "Looked around", "", emptyMetadata⟩

set_option maxRecDepth 4000 in
/-- C6: `generateSessionSummary` collects exactly the summaries of the
observations whose type is `decision` or whose summary mentions `chose`
or `decided` (case-insensitively), capped at 10; with no transcript the
modified-files list is the insertion-ordered union of every
observation's `metadata.files`, capped at 20; and the four-observation
scenario yields `keyDecisions = ["Chose Postgres over MySQL"]` and
`filesModified = ["a.ts", "b.ts"]`. -/
theorem claim_C6 (observations : List Observation) (transcript : String) :
    (generateSessionSummary observations transcript).keyDecisions =
      ((observations.filter qualifiesDecision).map
        (fun o => o.summary)).take 10 ∧
    (generateSessionSummary observations "").filesModified =
      (jsSetDedup ((observations.map obsFiles).flatten)).take 20 ∧
    (generateSessionSummary [obsD, obsA2, obsB2, obsC2] "").keyDecisions =
      ["Chose Postgres over MySQL"] ∧
    (generateSessionSummary [obsD, obsA2, obsB2, obsC2] "").filesModified =
      ["a.ts", "b.ts"] := by
  refine ⟨?_, ?_, by decide, by decide⟩
  · have h1 : (generateSessionSummary observations transcript).keyDecisions =
        (observations.foldl (fun a o =>
          if qualifiesDecision o then a ++ [o.summary] else a) []).take 10 :=
      rfl
    rw [h1, foldl_push_decisions]
    simp
  · have h2 : (generateSessionSummary observations "").filesModified =
        (((transcriptFiles "").foldl setAdd
          (observations.foldl (fun a o => (obsFiles o).foldl setAdd a)
            []))).take 20 := rfl
    rw [h2]
    have h3 : transcriptFiles "" = [] := rfl
    rw [h3, foldl_files]
    rfl

/-- The raw (pre-deduplication) values collected by `extractImports`. -/
def rawImports (code : String) : List String :=
  (([impP1, impP2, impP3, impP4].map
    (fun p => (execPattern p code).map pickImport))).flatten

/-- The raw values collected by `extractExports`. -/
def rawExports (code : String) : List String :=
  (([expP1, expP2, expP3].map
    (fun p => ((execPattern p code).map exportNames).flatten))).flatten

/-- The raw values collected by `extractFunctionSignatures`. -/
def rawFunctionSignatures (code : String) : List String :=
  (([funP1, funP2, funP3, funP4, funP5].map
    (fun p => (execPattern p code).map
      (fun m => (capGet m.2 1).getD "")))).flatten

/-- The raw values collected by `extractClassNames`. -/
def rawClassNames (code : String) : List String :=
  (([clsP1, clsP2, clsP3, clsP4].map
    (fun p => (execPattern p code).map
      (fun m => (capGet m.2 1).getD "")))).flatten

/-- C9 counterexample: the TODO/FIXME/HACK/BUG marker extractor is one
of the extractors, yet it does not deduplicate (two identical TODO lines
both appear) and it caps its own result at 10 entries (11 marker lines
yield 10 results). -/
theorem claim_C9_counterexample :
    extractErrorPatterns "TODO a\nTODO a" = ["TODO a", "TODO a"] ∧
    ¬(extractErrorPatterns "TODO a\nTODO a").Nodup ∧
    (extractErrorPatterns
      (String.intercalate "\n" (List.replicate 11 "TODO a"))).length = 10 := by
  refine ⟨by decide, by decide, by decide⟩

/-- C9 (amended): the import, export, function-signature and class-name
extractors return deduplicated lists of distinct matches that preserve
insertion order (each is a sublist of the raw match sequence) and apply
no cap of their own; the TODO/FIXME/HACK/BUG marker extractor does not
deduplicate and itself caps its result at 10 entries. -/
theorem claim_C9 (code : String) :
    (extractImports code).Nodup ∧
    (extractImports code).Sublist (rawImports code) ∧
    (extractExports code).Nodup ∧
    (extractExports code).Sublist (rawExports code) ∧
    (extractFunctionSignatures code).Nodup ∧
    (extractFunctionSignatures code).Sublist (rawFunctionSignatures code) ∧
    (extractClassNames code).Nodup ∧
    (extractClassNames code).Sublist (rawClassNames code) ∧
    (extractErrorPatterns code).length ≤ 10 :=
  ⟨jsSetDedup_nodup _, jsSetDedup_sublist _,
   jsSetDedup_nodup _, jsSetDedup_sublist _,
   jsSetDedup_nodup _, jsSetDedup_sublist _,
   jsSetDedup_nodup _, jsSetDedup_sublist _,
   List.length_take_le ..⟩

/-- C8 counterexample: with the `pattern` field absent, the Grep caption
interpolates the JS value `undefined` as the literal text `undefined`
rather than falling back to the placeholder `pattern`. -/
theorem claim_C8_counterexample :
    generateSummary "Grep" emptyToolInput "hit one" =
      "Found 1 matches for \"undefined\"" ∧
    generateSummary "Grep" emptyToolInput "hit one" ≠
      "Found 1 matches for \"pattern\"" :=
  ⟨by decide, by decide⟩

/-- C8 (amended): the summary generator is total (it never raises);
unrecognized tools yield `{toolName} completed`; a missing `file_path`
falls back to the literal placeholder `file` and a missing `command` to
`command`; but a missing `pattern` is interpolated as the literal text
`undefined` (not the placeholder `pattern`). -/
theorem claim_C8 (toolName : String) (input : ToolInput) (out : String) :
    (input.file_path = none →
      generateSummary "Read" input out =
        "Read file (" ++ toString ((jsSplit out '\n').length) ++ " lines)" ∧
      generateSummary "Edit" input out = "Edited file" ∧
      generateSummary "Write" input out = "Created file") ∧
    (input.command = none →
      generateSummary "Bash" input out =
        (if jsIncludes (jsToLower out) "error" ||
            jsIncludes (jsToLower out) "failed"
         then "Command failed: command" else "Ran: command")) ∧
    (input.pattern = none →
      generateSummary "Grep" input out =
        "Found " ++
          toString (((jsSplit out '\n').filter (fun s => s ≠ "")).length) ++
          " matches for \"" ++ "undefined" ++ "\"") ∧
    (toolName ∉ (["Read", "Edit", "Write", "Bash", "Grep", "Glob",
        "WebFetch", "WebSearch"] : List String) →
      generateSummary toolName input out = toolName ++ " completed") := by
  refine ⟨fun hfp => ?_, fun hc => ?_, fun hp => ?_, fun hu => ?_⟩
  · refine ⟨?_, ?_, ?_⟩ <;> simp [generateSummary, hfp]
  · simp only [generateSummary, hc]
    split <;> simp_all
  · simp [generateSummary, hp, optSlice]
  · simp only [List.mem_cons, List.mem_singleton, not_or] at hu
    obtain ⟨h1, h2, h3, h4, h5, h6, h7, h8⟩ := hu
    simp [generateSummary, h1, h2, h3, h4, h5, h6, h7, h8]

theorem claim_C8_witness :
    generateSummary "Read" emptyToolInput "xyz" = "Read file (1 lines)" ∧
    generateSummary "Task" emptyToolInput "xyz" = "Task completed" := by
  have h := claim_C8 "Task" emptyToolInput "xyz"
  refine ⟨?_, h.2.2.2 (by decide)⟩
  rw [(h.1 rfl).1]
  decide

theorem outA_toLower (n : Nat) : jsToLower (outA n) = outA n := by
  unfold jsToLower outA
  rw [show ((⟨List.replicate n 'a'⟩ : String)).data = List.replicate n 'a'
    from rfl, List.map_replicate]
  rfl

theorem listPre_replicate {c : Char} (cs : List Char)
    (hne : (c = 'a') = false) :
    ∀ n, listPre (c :: cs) (List.replicate n 'a') = false
  | 0 => rfl
  | n + 1 => by
    rw [List.replicate_succ]
    simp [listPre, hne]

theorem listInfix_replicate {c : Char} (cs : List Char)
    (hne : (c = 'a') = false) :
    ∀ n, listInfix (c :: cs) (List.replicate n 'a') = false
  | 0 => rfl
  | n + 1 => by
    rw [List.replicate_succ]
    show (listPre (c :: cs) ('a' :: List.replicate n 'a') ||
      listInfix (c :: cs) (List.replicate n 'a')) = false
    rw [show ('a' :: List.replicate n 'a') = List.replicate (n + 1) 'a' from
      (List.replicate_succ ..).symm]
    rw [listPre_replicate cs hne (n + 1), listInfix_replicate cs hne n]
    rfl

theorem jsIncludes_outA (n : Nat) (sub : String) (c : Char) (cs : List Char)
    (hd : sub.data = c :: cs) (hne : (c = 'a') = false) :
    jsIncludes (outA n) sub = false := by
  unfold jsIncludes outA
  rw [hd]
  exact listInfix_replicate cs hne n

theorem compress_le_threshold (toolName : String) (toolInput : ToolInput)
    (output : String) (h : output.length ≤ 3000) :
    compressToolOutput toolName toolInput output =
      some ⟨output, false, output.length⟩ := by
  unfold compressToolOutput COMPRESSION_THRESHOLD
  rw [if_pos h]

theorem classify_bash_outA (n : Nat) :
    classifyObservationType "Bash" (outA n) = ObservationType.discovery := by
  have h1 := jsIncludes_outA n "error" 'e' "rror".data rfl (by decide)
  have h2 := jsIncludes_outA n "failed" 'f' "ailed".data rfl (by decide)
  have h3 := jsIncludes_outA n "exception" 'e' "xception".data rfl (by decide)
  have h4 := jsIncludes_outA n "success" 's' "uccess".data rfl (by decide)
  have h5 := jsIncludes_outA n "passed" 'p' "assed".data rfl (by decide)
  have h6 := jsIncludes_outA n "completed" 'c' "ompleted".data rfl (by decide)
  have h7 := jsIncludes_outA n "warning" 'w' "arning".data rfl (by decide)
  have h8 := jsIncludes_outA n "deprecated" 'd' "eprecated".data rfl (by decide)
  simp [classifyObservationType, outA_toLower, h1, h2, h3, h4, h5, h6, h7, h8]

theorem summary_bash_outA (n : Nat) :
    generateSummary "Bash" emptyToolInput (outA n) = "Ran: command" := by
  have h1 := jsIncludes_outA n "error" 'e' "rror".data rfl (by decide)
  have h2 := jsIncludes_outA n "failed" 'f' "ailed".data rfl (by decide)
  simp [generateSummary, emptyToolInput, outA_toLower, h1, h2]

theorem postToolUse_bash_outA (n : Nat) (h50 : 50 ≤ n) (h3000 : n ≤ 3000) :
    (postToolUse (some "Bash") emptyToolInput (outA n)).2 =
      some ⟨ObservationType.discovery, "Ran: command", hookContent (outA n),
        emptyMetadata⟩ := by
  have hlen : (outA n).length = n := outA_length n
  have hne : ¬(outA n = "") := by
    intro hh
    rw [hh] at hlen
    have : (0 : Nat) = n := hlen
    omega
  have hlt : ¬((outA n).length < MIN_OUTPUT_LENGTH) := by
    rw [hlen]
    unfold MIN_OUTPUT_LENGTH
    omega
  have heff : hookEffectiveOutput "Bash" emptyToolInput (outA n) = outA n := by
    unfold hookEffectiveOutput
    rw [if_neg (show ¬((ALWAYS_CAPTURE_TOOLS.contains "Bash" &&
        decide ((outA n).length < MIN_OUTPUT_LENGTH)) = true) from by
      rw [decide_eq_false hlt]
      decide)]
  have hm1 := jsIncludes_outA n "<system-reminder>" '<' "system-reminder>".data
    rfl (by decide)
  have hm2 := jsIncludes_outA n "<memvid-mind-context>" '<'
    "memvid-mind-context>".data rfl (by decide)
  have hres := compress_le_threshold "Bash" emptyToolInput (outA n)
    (by rw [hlen]; omega)
  have hmeta : hookMetadata "Bash" emptyToolInput
      ⟨outA n, false, (outA n).length⟩ = emptyMetadata := rfl
  have hbuild : buildObservation "Bash" emptyToolInput (outA n) =
      some ⟨ObservationType.discovery, "Ran: command", hookContent (outA n),
        emptyMetadata⟩ := by
    unfold buildObservation
    rw [hres]
    simp only [Option.map_some']
    rw [classify_bash_outA n, summary_bash_outA n, hmeta]
  simp only [postToolUse]
  rw [if_neg (by decide)]
  rw [if_neg (show ¬((!(ALWAYS_CAPTURE_TOOLS.contains "Bash") &&
      (decide (outA n = "") || decide ((outA n).length < MIN_OUTPUT_LENGTH)))
        = true) from by
    rw [decide_eq_false hne, decide_eq_false hlt]
    decide)]
  rw [heff]
  rw [if_neg (show ¬((jsIncludes (outA n) "<system-reminder>" ||
      jsIncludes (outA n) "<memvid-mind-context>") = true) from by
    rw [hm1, hm2]
    decide)]
  rw [hbuild]

/-- C1 (amended): every observation stored by the post-tool-use hook has
content of at most 2517 characters: when the compressed text is longer
than 2500 characters the hook keeps its first 2500 characters and then
appends the 17-character truncation marker, so the stored content
(including the marker) is bounded by 2517 characters, not 2500. -/
theorem claim_C1 (toolName : String) (toolInput : ToolInput)
    (toolOutput : String) (obs : HookStored)
    (h : (postToolUse (some toolName) toolInput toolOutput).2 = some obs) :
    obs.content.length ≤ 2517 := by
  simp only [postToolUse] at h
  split at h
  · exact absurd h (by simp)
  · split at h
    · exact absurd h (by simp)
    · split at h
      · exact absurd h (by simp)
      · replace h : buildObservation toolName toolInput
            (hookEffectiveOutput toolName toolInput toolOutput) = some obs := h
        unfold buildObservation at h
        cases hcmp : compressToolOutput toolName toolInput
            (hookEffectiveOutput toolName toolInput toolOutput) with
        | none =>
          rw [hcmp] at h
          simp at h
        | some res =>
          rw [hcmp] at h
          simp only [Option.map_some', Option.some.injEq] at h
          rw [← h]
          exact hookContent_length_le _

/-- C1 counterexample: a 2600-character Bash output is below the
compression threshold, so it reaches the hook's own truncation intact;
the stored observation's content is the first 2500 characters plus the
appended marker — 2517 characters, which exceeds the claimed
2500-character bound. -/
theorem claim_C1_counterexample :
    (postToolUse (some "Bash") emptyToolInput (outA 2600)).2 =
      some ⟨ObservationType.discovery, "Ran: command",
        hookContent (outA 2600), emptyMetadata⟩ ∧
    (hookContent (outA 2600)).length = 2517 ∧
    2500 < (hookContent (outA 2600)).length := by
  refine ⟨postToolUse_bash_outA 2600 (by omega) (by omega), ?_, ?_⟩ <;>
  · unfold hookContent MAX_OUTPUT_LENGTH
    rw [if_pos (by rw [outA_length]; omega)]
    rw [strLength_append, jsTake_length, outA_length]
    have hm : ("\n... (compressed)" : String).length = 17 := rfl
    rw [hm]
    decide

theorem claim_C1_witness :
    (postToolUse (some "Bash") emptyToolInput (outA 50)).2 =
      some ⟨ObservationType.discovery, "Ran: command", hookContent (outA 50),
        emptyMetadata⟩ ∧
    (⟨ObservationType.discovery, "Ran: command", hookContent (outA 50),
        emptyMetadata⟩ : HookStored).content.length ≤ 2517 := by
  have he := postToolUse_bash_outA 50 (by omega) (by omega)
  exact ⟨he, claim_C1 "Bash" emptyToolInput (outA 50) _ he⟩

theorem postToolUse_char (tn : String) (input : ToolInput) (out : String) :
    (postToolUse (some tn) input out).2 =
      (if tn ∈ OBSERVED_TOOLS ∧
          (tn ∈ ALWAYS_CAPTURE_TOOLS ∨ MIN_OUTPUT_LENGTH ≤ out.length) ∧
          jsIncludes (hookEffectiveOutput tn input out)
            "<system-reminder>" = false ∧
          jsIncludes (hookEffectiveOutput tn input out)
            "<memvid-mind-context>" = false
       then buildObservation tn input (hookEffectiveOutput tn input out)
       else none) := by
  by_cases hc : tn ∈ OBSERVED_TOOLS
  · by_cases ha : tn ∈ ALWAYS_CAPTURE_TOOLS
    · cases h1 : jsIncludes (hookEffectiveOutput tn input out)
          "<system-reminder>" <;>
        cases h2 : jsIncludes (hookEffectiveOutput tn input out)
            "<memvid-mind-context>" <;>
          simp [postToolUse, hc, ha, h1, h2]
    · by_cases hlt : out.length < MIN_OUTPUT_LENGTH
      · have hge : ¬(MIN_OUTPUT_LENGTH ≤ out.length) := by omega
        simp [postToolUse, hc, ha, Or.inr hlt, hge]
      · have hne : ¬(out = "") := fun hh => hlt (by rw [hh]; decide)
        have hge : MIN_OUTPUT_LENGTH ≤ out.length := by omega
        cases h1 : jsIncludes (hookEffectiveOutput tn input out)
            "<system-reminder>" <;>
          cases h2 : jsIncludes (hookEffectiveOutput tn input out)
              "<memvid-mind-context>" <;>
            simp [postToolUse, hc, ha, hne, hlt, hge, h1, h2]
  · simp [postToolUse, hc]

/-- C10: the post-tool-use hook stores an observation only when the
tool is in the observed-tools set, the output is at least 50 characters
long unless the tool is an always-capture edit tool, and the effective
output contains neither `<system-reminder>` nor `<memvid-mind-context>`;
when any of these fails it stores nothing.  The `continue` flag is
reported on every path, and a stored observation for a short
always-capture output is built from the synthetic `File modified` body.
(The converse is not claimed: a Glob output whose parsed `filenames` is
a truthy non-array, or an array with a non-string entry, throws at
`files.forEach`/`f.split` and stores nothing although every condition
holds.) -/
theorem claim_C10 (tn : String) (input : ToolInput) (out : String) :
    postToolUse none input out = (true, none) ∧
    (postToolUse (some tn) input out).1 = true ∧
    (∀ obs : HookStored, (postToolUse (some tn) input out).2 = some obs →
      (tn ∈ OBSERVED_TOOLS ∧
       (tn ∈ ALWAYS_CAPTURE_TOOLS ∨ MIN_OUTPUT_LENGTH ≤ out.length) ∧
       jsIncludes (hookEffectiveOutput tn input out)
         "<system-reminder>" = false ∧
       jsIncludes (hookEffectiveOutput tn input out)
         "<memvid-mind-context>" = false)) ∧
    (¬(tn ∈ OBSERVED_TOOLS ∧
       (tn ∈ ALWAYS_CAPTURE_TOOLS ∨ MIN_OUTPUT_LENGTH ≤ out.length) ∧
       jsIncludes (hookEffectiveOutput tn input out)
         "<system-reminder>" = false ∧
       jsIncludes (hookEffectiveOutput tn input out)
         "<memvid-mind-context>" = false) →
      (postToolUse (some tn) input out).2 = none) ∧
    ((tn ∈ ALWAYS_CAPTURE_TOOLS ∧ out.length < MIN_OUTPUT_LENGTH) →
      ∀ obs : HookStored, (postToolUse (some tn) input out).2 = some obs →
        buildObservation tn input (syntheticBody tn input) = some obs) := by
  refine ⟨rfl, ?_, ?_, ?_, ?_⟩
  · simp only [postToolUse]
    split
    · rfl
    · split
      · rfl
      · split
        · rfl
        · rfl
  · intro obs hobs
    rw [postToolUse_char] at hobs
    by_cases hcond : tn ∈ OBSERVED_TOOLS ∧
        (tn ∈ ALWAYS_CAPTURE_TOOLS ∨ MIN_OUTPUT_LENGTH ≤ out.length) ∧
        jsIncludes (hookEffectiveOutput tn input out)
          "<system-reminder>" = false ∧
        jsIncludes (hookEffectiveOutput tn input out)
          "<memvid-mind-context>" = false
    · exact hcond
    · rw [if_neg hcond] at hobs
      exact absurd hobs (by simp)
  · intro hncond
    rw [postToolUse_char, if_neg hncond]
  · rintro ⟨ha, hlt⟩ obs hobs
    have heff2 : hookEffectiveOutput tn input out = syntheticBody tn input := by
      unfold hookEffectiveOutput
      rw [if_pos]
      simp [ha, hlt]
    rw [postToolUse_char] at hobs
    by_cases hcond : tn ∈ OBSERVED_TOOLS ∧
        (tn ∈ ALWAYS_CAPTURE_TOOLS ∨ MIN_OUTPUT_LENGTH ≤ out.length) ∧
        jsIncludes (hookEffectiveOutput tn input out)
          "<system-reminder>" = false ∧
        jsIncludes (hookEffectiveOutput tn input out)
          "<memvid-mind-context>" = false
    · rw [if_pos hcond, heff2] at hobs
      exact hobs
    · rw [if_neg hcond] at hobs
      exact absurd hobs (by simp)

/-- The tool input of the C10 witness: an Edit with only a file path. -/
def inpEdit : ToolInput := ⟨some "/a/b.ts", none, none, none, none, none⟩

/-- The record the hook stores for the C10 witness input. -/
def obsEdit : HookStored :=
  ⟨ObservationType.refactor, "Edited b.ts", syntheticBody "Edit" inpEdit,
    ⟨some ["/a/b.ts"], none, none, none, none, none, none⟩⟩

theorem claim_C10_witness :
    (postToolUse (some "Edit") inpEdit "").2 = some obsEdit ∧
    ("Edit" ∈ OBSERVED_TOOLS ∧
     ("Edit" ∈ ALWAYS_CAPTURE_TOOLS ∨
       MIN_OUTPUT_LENGTH ≤ ("" : String).length) ∧
     jsIncludes (hookEffectiveOutput "Edit" inpEdit "")
       "<system-reminder>" = false ∧
     jsIncludes (hookEffectiveOutput "Edit" inpEdit "")
       "<memvid-mind-context>" = false) ∧
    buildObservation "Edit" inpEdit (syntheticBody "Edit" inpEdit) =
      some obsEdit := by
  have hst : (postToolUse (some "Edit") inpEdit "").2 = some obsEdit := by
    decide
  have h := claim_C10 "Edit" inpEdit ""
  exact ⟨hst, h.2.2.1 obsEdit hst, h.2.2.2.2 ⟨by decide, by decide⟩ obsEdit hst⟩
